import Mathlib

/-!
Shallow embedding of `scripts/voice_wake.py` (voice-wake-linux).

Effectful Python code is modelled as pure total functions over explicit
"environment" values that record the outcome of each external interaction
(subprocess results, exceptions raised by libraries, filesystem checks).
Each embedded function returns the externally observable behaviour: the
value the Python function returns, the subprocess/file actions it performs
(in order), the log records it emits (with their logging level), and
whether an exception escapes it.
-/

namespace VoiceWake

/-- Logging levels of the Python `logging` module used by the script. -/
inductive LogLevel
  | debug
  | info
  | warning
  | error
deriving DecidableEq, Repr

/-- One emitted log record: its level and (an abbreviation of) its message. -/
structure LogEntry where
  level : LogLevel
  msg : String
deriving DecidableEq, Repr

/-- Externally observable actions of the service: subprocess invocations,
microphone recording, file deletions, thread spawns, sleeps. -/
inductive Action
  | recordAudio                      -- `self.recognizer.record(source, duration=10)`
  | runAgentCLI (message : String)   -- `subprocess.run([OPENCLAW_CLI, 'agent', ...])`
  | runAgentTTS (text : String)      -- `subprocess.run([OPENCLAW_CLI, 'tts', '--text', text])`
  | runEspeak (text : String)        -- `subprocess.run(['espeak', ..., text])`
  | playAudio (path : String)        -- `subprocess.run([AUDIO_PLAYER, path])` in play_audio
  | playMp3 (path : String)          -- `subprocess.run([MP3_PLAYER, '-nodisp', '-autoexit', path])`
  | aplayQ (path : String)           -- `subprocess.run(['aplay', '-q', path])` in play_wake_feedback
  | unlink (path : String)           -- `os.unlink(path)` attempt
  | playWakeFeedback                 -- call of self.play_wake_feedback() from the poll loop
  | spawnRecordingThread             -- `threading.Thread(target=self.record_and_transcribe).start()`
  | sleepPause                       -- `time.sleep(0.1)` in the poll loop's error handler
deriving DecidableEq, Repr

/-! ## Configuration (class Config in voice_wake.py) -/

/-- `Config.WAKE_WORD = 'hey_jarvis'`. -/
def WAKE_WORD : String := "hey_jarvis"

/-- `Config.DETECTION_THRESHOLD = 0.3`, i.e. the rational 3/10 (written
with `mkRat` so that concrete comparisons evaluate by kernel reduction). -/
def DETECTION_THRESHOLD : ℚ := mkRat 3 10

/-- Subtraction of rationals written out on numerators and denominators;
`ratSub_eq_sub` proves it agrees with `Sub.sub` on ℚ. Used to discharge
concrete cooldown comparisons by evaluation. -/
def ratSub (a b : ℚ) : ℚ := mkRat (a.num * b.den - b.num * a.den) (a.den * b.den)

theorem ratSub_eq_sub (a b : ℚ) : ratSub a b = a - b :=
  (Rat.sub_def' a b).symm

/-- The wake-word cooldown. `voice_wake.py` hardcodes the literal `3` in
`if time.time() - last_run > 3:`; `config.example.py` names the same value
`WAKE_WORD_COOLDOWN = 3`. -/
def WAKE_WORD_COOLDOWN : ℚ := 3

/-! ## Python string operations

Models of the Python `str` operations the script uses (`strip`, slicing,
`startswith`, substring `in`, `split(sep)[1]`), written over `List Char`
so that concrete instances evaluate by kernel reduction. -/

/-- Python `s.strip()`: remove leading and trailing whitespace. -/
def pyStrip (s : String) : String :=
  ⟨((s.data.dropWhile Char.isWhitespace).reverse.dropWhile Char.isWhitespace).reverse⟩

/-- Python `s.startswith(p)`. -/
def pyStartsWith (s p : String) : Bool :=
  s.data.take p.data.length == p.data

/-- Python `s[n:]`. -/
def pyDrop (s : String) (n : Nat) : String :=
  ⟨s.data.drop n⟩

/-- Index of the first occurrence of `sub` in `s`, if any. -/
def findSub (s sub : List Char) : Option Nat :=
  (List.range (s.length + 1)).find? fun i => ((s.drop i).take sub.length) == sub

/-- Python `sub in s` for strings (substring containment). -/
def pyContainsSub (s sub : String) : Bool :=
  (findSub s.data sub.data).isSome

/-- Python `s.split(sub)[1]`: the segment after the first occurrence of
`sub`, up to the next occurrence of `sub` (or the end). Only meaningful
when `sub` occurs in `s`, which every caller guards with `sub in s`. -/
def splitSecond (s sub : String) : String :=
  match findSub s.data sub.data with
  | none => s
  | some i =>
    let rest := s.data.drop (i + sub.data.length)
    match findSub rest sub.data with
    | none => ⟨rest⟩
    | some j => ⟨rest.take j⟩

/-! ## JSON values and the Python operations send_to_openclaw applies to them

`json.loads` can produce any JSON value; the extraction code then applies
`in`, subscripting, truthiness, `len` and `.get` to it.  Operations that
raise `TypeError`/`KeyError`/`IndexError`/`AttributeError` in Python are
modelled with `Except Unit`; such an exception is not caught by the inner
`except json.JSONDecodeError` handler but by the outer `except Exception`. -/

/-- A parsed JSON value. An `obj` models a Python dict produced by
`json.loads` (keys distinct, association order irrelevant). -/
inductive JsonVal
  | null
  | bool (b : Bool)
  | num (q : ℚ)
  | str (s : String)
  | arr (elems : List JsonVal)
  | obj (fields : List (String × JsonVal))

/-- Python truthiness of a JSON value (`if payloads:`, `if response_text:`). -/
def pyTruthy : JsonVal → Bool
  | .null => false
  | .bool b => b
  | .num q => q ≠ 0
  | .str s => s ≠ ""
  | .arr elems => ¬ elems.isEmpty
  | .obj fields => ¬ fields.isEmpty

/-- Python `key in v` for a string `key`: dict key membership, list element
equality (a non-`str` element never equals a `str`), substring test on
strings; `TypeError` on the remaining types. -/
def pyContains (key : String) : JsonVal → Except Unit Bool
  | .obj fields => .ok (fields.any (fun f => f.1 == key))
  | .arr elems => .ok (elems.any (fun e => match e with | .str s => s == key | _ => false))
  | .str s => .ok (pyContainsSub s key)
  | _ => .error ()

/-- Python `v[key]` for a string `key`: dict lookup (`KeyError` when
absent), `TypeError` on every other type. -/
def pyIndexStr (v : JsonVal) (key : String) : Except Unit JsonVal :=
  match v with
  | .obj fields =>
    match fields.lookup key with
    | some w => .ok w
    | none => .error ()
  | _ => .error ()

/-- Python `len(v)`: defined for lists, strings and dicts; `TypeError`
otherwise. -/
def pyLen : JsonVal → Except Unit Nat
  | .arr elems => .ok elems.length
  | .str s => .ok s.length
  | .obj fields => .ok fields.length
  | _ => .error ()

/-- Python `v[0]`: head of a list (`IndexError` when empty), first
character of a string, error on the other types (`KeyError` for a dict
without key `0`, `TypeError` otherwise). -/
def pyIndexZero : JsonVal → Except Unit JsonVal
  | .arr (h :: _) => .ok h
  | .arr [] => .error ()
  | .str s => if s = "" then .error () else .ok (.str ⟨s.data.take 1⟩)
  | _ => .error ()

/-- Python `v.get('text', '')`: only dicts have `.get`; `AttributeError`
otherwise. -/
def pyGetText (v : JsonVal) : Except Unit JsonVal :=
  match v with
  | .obj fields => .ok ((fields.lookup "text").getD (.str ""))
  | _ => .error ()

/-- The response-extraction logic of `send_to_openclaw` (lines 205-212),
applied to the JSON value parsed from stdout.  `.ok (some v)` models
`return response_text` with a truthy `response_text`; `.ok none` models
falling through to the `logger.warning`/`return None` path; `.error ()`
models a Python exception reaching the outer `except Exception`. -/
def extractResponse (response : JsonVal) : Except Unit (Option JsonVal) := do
  let hasResult ← pyContains "result" response
  if hasResult then
    let res ← pyIndexStr response "result"
    let hasPayloads ← pyContains "payloads" res
    if hasPayloads then
      let payloads ← pyIndexStr res "payloads"
      if pyTruthy payloads then
        let n ← pyLen payloads
        if n > 0 then
          let first ← pyIndexZero payloads
          let responseText ← pyGetText first
          if pyTruthy responseText then
            return some responseText
          else
            return none
        else
          return none
      else
        return none
    else
      return none
  else
    return none

/-- Outcome of the `subprocess.run([OPENCLAW_CLI, 'agent', ...])` call:
it completed with an exit code and a stdout whose `json.loads` result is
`parsed` (`none` = `json.JSONDecodeError`), or it raised
`subprocess.TimeoutExpired`, or some other exception was raised. -/
inductive AgentOutcome
  | completed (exitCode : Int) (parsed : Option JsonVal)
  | timedOut
  | raised

/-- Result of `send_to_openclaw`: the returned value (the Python function
returns `response_text` — whatever JSON value that is — or `None`), the
actions performed and the log records emitted. -/
structure AgentResult where
  result : Option JsonVal
  actions : List Action
  logs : List LogEntry

/-- Embedding of `VoiceWakeService.send_to_openclaw` (lines 175-226). -/
def sendToOpenclaw (text : String) (env : AgentOutcome) : AgentResult :=
  let sendLog : LogEntry := ⟨.info, "Sending to OpenClaw"⟩
  let acts : List Action := [.runAgentCLI text]
  match env with
  | .timedOut =>
    ⟨none, acts, [sendLog, ⟨.error, "OpenClaw command timed out"⟩]⟩
  | .raised =>
    ⟨none, acts, [sendLog, ⟨.error, "Failed to send to OpenClaw"⟩]⟩
  | .completed exitCode parsed =>
    if exitCode ≠ 0 then
      ⟨none, acts, [sendLog, ⟨.error, "OpenClaw CLI failed"⟩]⟩
    else
      match parsed with
      | none =>
        ⟨none, acts, [sendLog, ⟨.error, "Failed to parse OpenClaw JSON response"⟩]⟩
      | some response =>
        match extractResponse response with
        | .error () =>
          ⟨none, acts, [sendLog, ⟨.error, "Failed to send to OpenClaw"⟩]⟩
        | .ok (some v) =>
          ⟨some v, acts, [sendLog, ⟨.info, "OpenClaw response"⟩]⟩
        | .ok none =>
          ⟨none, acts, [sendLog, ⟨.warning, "No response text found in OpenClaw output"⟩]⟩

/-! ## play_wake_feedback (lines 228-269) -/

/-- Outcome of the `subprocess.run(['aplay', '-q', temp_filename], check=True,
timeout=2)` call inside `play_wake_feedback`. -/
inductive FeedbackPlayOutcome
  | ok                    -- exit 0
  | timedOut              -- subprocess.TimeoutExpired
  | calledProcessError    -- non-zero exit with check=True
  | notFound              -- FileNotFoundError: aplay missing
deriving DecidableEq, Repr

/-- Environment of one `play_wake_feedback` call: whether tone generation
and temp-file creation succeed, the temp file's name, the playback
outcome, and whether the `os.unlink` succeeds. -/
structure FeedbackEnv where
  genOk : Bool
  tempPath : String
  play : FeedbackPlayOutcome
  unlinkOk : Bool

/-- Observable result of `play_wake_feedback`: actions in order, log
records, and whether an exception escaped to the caller. -/
structure FeedbackResult where
  actions : List Action
  logs : List LogEntry
  raised : Bool
deriving DecidableEq, Repr

/-- Embedding of `VoiceWakeService.play_wake_feedback` (lines 228-269).
Tone generation and temp-file writing happen inside the outer
`try/except Exception`; when they fail, no play is attempted. Otherwise
the play is attempted, its four outcomes are each caught and logged, and
the `finally` block attempts `os.unlink` whose own failure is swallowed by
a bare `except: pass`. -/
def playWakeFeedback (env : FeedbackEnv) : FeedbackResult :=
  if ¬ env.genOk then
    { actions := [],
      logs := [⟨.warning, "Failed to generate/play audio feedback"⟩],
      raised := false }
  else
    let playLogs : List LogEntry :=
      match env.play with
      | .ok => [⟨.debug, "Audio feedback played successfully"⟩]
      | .timedOut => [⟨.warning, "Audio feedback playback timed out"⟩]
      | .calledProcessError => [⟨.warning, "Failed to play audio feedback"⟩]
      | .notFound => [⟨.warning, "aplay not found - audio feedback disabled"⟩]
    { actions := [.aplayQ env.tempPath, .unlink env.tempPath],
      logs := playLogs,
      raised := false }

/-! ## text_to_speech (lines 271-321) -/

/-- Outcome of a `subprocess.run` on an external command: completion with
an exit code and stdout, `FileNotFoundError` (binary missing), or some
other raised exception (timeout and the like). -/
inductive ProcOutcome
  | completed (exitCode : Int) (stdout : String)
  | fileNotFound
  | raised

/-- Environment of one `text_to_speech` call: the outcome of the primary
`openclaw tts` invocation, the name of the `NamedTemporaryFile` created
for the fallback, and the outcome of the `espeak` invocation. -/
structure TTSEnv where
  primary : ProcOutcome
  espeakTemp : String
  espeak : ProcOutcome

/-- `'MEDIA:' in stdout` (line 288). -/
def hasMediaMarker (stdout : String) : Bool :=
  pyContainsSub stdout "MEDIA:"

/-- `result.stdout.split('MEDIA:')[1].strip()` (line 290): the segment
between the first and second occurrence of the marker, stripped. -/
def mediaPathOf (stdout : String) : String :=
  pyStrip (splitSecond stdout "MEDIA:")

/-- Result of `text_to_speech`: the returned audio path or `None`, with
actions and logs. -/
structure TTSResult where
  result : Option String
  actions : List Action
  logs : List LogEntry

/-- The espeak fallback half of `text_to_speech` (lines 301-321).
`check=True` turns a non-zero exit into `CalledProcessError`, caught by
`except Exception`; `FileNotFoundError` gets its own handler. -/
def espeakFallback (text : String) (env : TTSEnv)
    (acts : List Action) (logs : List LogEntry) : TTSResult :=
  match env.espeak with
  | .completed 0 _ =>
    ⟨some env.espeakTemp, acts ++ [.runEspeak text],
      logs ++ [⟨.info, "TTS generated espeak"⟩]⟩
  | .completed _ _ =>
    ⟨none, acts ++ [.runEspeak text], logs ++ [⟨.error, "Espeak TTS failed"⟩]⟩
  | .fileNotFound =>
    ⟨none, acts ++ [.runEspeak text],
      logs ++ [⟨.error, "espeak not found - cannot speak responses"⟩]⟩
  | .raised =>
    ⟨none, acts ++ [.runEspeak text], logs ++ [⟨.error, "Espeak TTS failed"⟩]⟩

/-- Embedding of `VoiceWakeService.text_to_speech` (lines 271-321): one
primary attempt via `openclaw tts`; the espeak fallback runs exactly when
the primary attempt does not yield `returncode == 0` with a `MEDIA:`
marker in its stdout. -/
def textToSpeech (text : String) (env : TTSEnv) : TTSResult :=
  let primaryActs : List Action := [.runAgentTTS text]
  match env.primary with
  | .completed exitCode stdout =>
    if exitCode = 0 ∧ hasMediaMarker stdout then
      ⟨some (mediaPathOf stdout), primaryActs, [⟨.info, "TTS generated"⟩]⟩
    else
      espeakFallback text env primaryActs
        [⟨.warning, "OpenClaw TTS not available, using espeak fallback"⟩]
  | .fileNotFound =>
    espeakFallback text env primaryActs
      [⟨.warning, "OpenClaw CLI not found, using espeak fallback"⟩]
  | .raised =>
    espeakFallback text env primaryActs
      [⟨.warning, "OpenClaw TTS failed, using espeak fallback"⟩]

/-- The primary `openclaw tts` attempt succeeded: exit 0 and a `MEDIA:`
marker in stdout (line 288). -/
def primaryTTSSuccess (env : TTSEnv) : Prop :=
  match env.primary with
  | .completed exitCode stdout => exitCode = 0 ∧ hasMediaMarker stdout
  | _ => False

instance (env : TTSEnv) : Decidable (primaryTTSSuccess env) := by
  unfold primaryTTSSuccess
  match env.primary with
  | .completed e s => exact instDecidableAnd
  | .fileNotFound => exact instDecidableFalse
  | .raised => exact instDecidableFalse

/-! ## speak_response (lines 380-428) -/

/-- Environment of one `speak_response` call: the media-file existence
check, the `play_mp3` outcome (that helper catches all its own
exceptions and returns a bool, lines 351-378), the `text_to_speech`
environment, the existence check on the synthesised file, and the
`play_audio` outcome (also fully caught, lines 323-349). -/
structure SpeakEnv where
  mediaExists : Bool
  mp3Ok : Bool
  tts : TTSEnv
  synthExists : Bool
  audioOk : Bool

/-- Observable result of `speak_response`. -/
structure SpeakResult where
  actions : List Action
  logs : List LogEntry
  raised : Bool

/-- Embedding of `VoiceWakeService.speak_response` (lines 380-428) for a
string argument. `enableTTS` is `Config.ENABLE_TTS`. -/
def speakResponse (enableTTS : Bool) (text : String) (env : SpeakEnv) : SpeakResult :=
  if ¬ enableTTS then
    ⟨[], [⟨.info, "Response not spoken"⟩], false⟩
  else if pyStartsWith text "MEDIA:" then
    -- `mp3_path = text[6:].strip()`
    let mp3Path := pyStrip (pyDrop text 6)
    let detectLog : LogEntry := ⟨.info, "Detected MP3 response"⟩
    if env.mediaExists then
      if env.mp3Ok then
        ⟨[.playMp3 mp3Path], [detectLog, ⟨.info, "MP3 playback completed"⟩], false⟩
      else
        ⟨[.playMp3 mp3Path],
          [detectLog, ⟨.warning, "MP3 playback failed, falling back to TTS"⟩,
            ⟨.info, "No text content to speak from MEDIA response"⟩], false⟩
    else
      ⟨[], [detectLog, ⟨.warning, "MP3 file not found"⟩], false⟩
  else
    let ttsRes := textToSpeech text env.tts
    match ttsRes.result with
    | some audioPath =>
      -- `if audio_path and os.path.exists(audio_path):`
      if audioPath ≠ "" ∧ env.synthExists then
        -- play, then best-effort unlink unless owned by the TTS tool
        let cleanup : List Action :=
          if ¬ pyStartsWith audioPath "/tmp/tts-" then [.unlink audioPath] else []
        ⟨ttsRes.actions ++ [.playAudio audioPath] ++ cleanup, ttsRes.logs, false⟩
      else
        ⟨ttsRes.actions, ttsRes.logs ++ [⟨.warning, "Could not generate or find audio file"⟩], false⟩
    | none =>
      ⟨ttsRes.actions, ttsRes.logs ++ [⟨.warning, "Could not generate or find audio file"⟩], false⟩

/-- `speak_response` applied to an arbitrary JSON value returned by
`send_to_openclaw` (the Python function is untyped). For a non-string,
`text.startswith` raises `AttributeError`, which the function's own
`except Exception` turns into an error log — unless TTS is disabled, in
which case the f-string log works for any value. -/
def speakResponseAny (enableTTS : Bool) (v : JsonVal) (env : SpeakEnv) : SpeakResult :=
  match v with
  | .str s => speakResponse enableTTS s env
  | _ =>
    if ¬ enableTTS then
      ⟨[], [⟨.info, "Response not spoken"⟩], false⟩
    else
      ⟨[], [⟨.error, "Failed to speak response"⟩], false⟩

/-! ## record_and_transcribe (lines 430-479) -/

/-- Outcome of `self.recognizer.recognize_google(audio)` (line 451):
a transcript string, `sr.UnknownValueError`, `sr.RequestError`, or any
other raised exception (caught only by the outer `except Exception`). -/
inductive TranscribeOutcome
  | success (text : String)
  | unknownValue
  | requestError
  | otherRaised

/-- Environment of one recording cycle: whether the microphone recording
succeeds (an exception there reaches the outer handler), the feedback-tone
environment, the transcription outcome, the agent-CLI outcome, and the
speak-response environment. -/
structure CycleEnv where
  recordOk : Bool
  feedback : FeedbackEnv
  transcription : TranscribeOutcome
  agent : AgentOutcome
  speak : SpeakEnv

/-- Observable result of one `record_and_transcribe` invocation:
the `self.recording` flag at exit, the message sent to the agent CLI (if
the dispatcher was invoked), the actions, the logs, and whether an
exception escaped the function. -/
structure CycleResult where
  recording : Bool
  dispatched : Option String
  actions : List Action
  logs : List LogEntry
  raised : Bool

/-- The fixed directive suffix appended to the transcript (line 457). -/
def DIRECTIVE_SUFFIX : String := ". Reply in voice mode."

/-- The body of `record_and_transcribe`'s `try` block (lines 438-475),
including both exception handlers, for a cycle that passed the
`if self.recording: return` guard. Returns the dispatched message (if
any), the actions and the logs. Every exception is caught: by the inner
`except sr.UnknownValueError` / `except sr.RequestError` handlers or the
outer `except Exception`. -/
def cycleBody (enableTTS : Bool) (env : CycleEnv) : Option String × List Action × List LogEntry :=
  let preLogs : List LogEntry :=
    [⟨.info, "Wake word detected! Recording for 10 seconds"⟩,
      ⟨.info, "Recording... You have 10 seconds to speak your command"⟩]
  if ¬ env.recordOk then
    (none, [.recordAudio],
      preLogs ++ [⟨.error, "Error during recording/transcription"⟩])
  else
    let fb := playWakeFeedback env.feedback
    let recLogs := preLogs ++ [⟨.info, "Recording finished"⟩] ++ fb.logs
      ++ [⟨.info, "Transcribing"⟩]
    let recActs := [Action.recordAudio] ++ fb.actions
    match env.transcription with
    | .success text =>
      if text ≠ "" ∧ pyStrip text ≠ "" then
        let transcribedLog : LogEntry := ⟨.info, "Transcribed"⟩
        let message := pyStrip text ++ DIRECTIVE_SUFFIX
        let agentRes := sendToOpenclaw message env.agent
        match agentRes.result with
        | some v =>
          let spoken := speakResponseAny enableTTS v env.speak
          (some message, recActs ++ agentRes.actions ++ spoken.actions,
            recLogs ++ [transcribedLog] ++ agentRes.logs
              ++ [⟨.info, "Command processed successfully"⟩] ++ spoken.logs)
        | none =>
          (some message, recActs ++ agentRes.actions,
            recLogs ++ [transcribedLog] ++ agentRes.logs
              ++ [⟨.warning, "No response from OpenClaw"⟩])
      else
        (none, recActs, recLogs ++ [⟨.info, "No speech detected or transcription empty"⟩])
    | .unknownValue =>
      (none, recActs, recLogs ++ [⟨.info, "Could not understand audio"⟩])
    | .requestError =>
      (none, recActs, recLogs ++ [⟨.error, "Speech recognition error"⟩])
    | .otherRaised =>
      (none, recActs, recLogs ++ [⟨.error, "Error during recording/transcription"⟩])

/-- Embedding of `VoiceWakeService.record_and_transcribe` (lines 430-479).
If `self.recording` is already true the function returns at once, before
the `try` block, leaving the flag (owned by the running cycle) untouched.
Otherwise the flag is set, the body runs with every exception caught, and
the `finally` block clears the flag and logs readiness on every exit
path. -/
def recordAndTranscribe (recording : Bool) (enableTTS : Bool) (env : CycleEnv) : CycleResult :=
  if recording then
    { recording := true, dispatched := none, actions := [], logs := [], raised := false }
  else
    let body := cycleBody enableTTS env
    { recording := false,
      dispatched := body.1,
      actions := body.2.1,
      logs := body.2.2 ++ [⟨.info, "Ready for next wake word"⟩],
      raised := false }

/-! ## The poll loop of start (lines 506-543) -/

/-- State read and written by one iteration of the main wake-word
detection loop: the `self.running` flag and the `last_run` timestamp. -/
structure LoopState where
  running : Bool
  last_run : ℚ
deriving DecidableEq, Repr

/-- Outcome of one iteration's audio read / prediction: a predictions
mapping (wake-word name → confidence, a dict modelled as an association
list with distinct keys), or an exception raised inside the iteration's
`try` block (such as a transient frame-read error). -/
inductive FrameOutcome
  | ok (predictions : List (String × ℚ))
  | readError

/-- Result of one poll-loop iteration. -/
structure PollResult where
  state : LoopState
  actions : List Action
  logs : List LogEntry

/-- Embedding of one iteration of the `while self.running` loop in
`VoiceWakeService.start` (lines 508-543): read a frame, run the detector,
and when the configured wake word's confidence strictly exceeds
`DETECTION_THRESHOLD` and `time.time() - last_run > 3`, play feedback,
spawn a recording thread and set `last_run = time.time()`. A raised
exception is caught by the iteration's handler: logged (when still
running) with a brief `time.sleep(0.1)` pause, and the loop continues. -/
def pollStep (now : ℚ) (st : LoopState) (fr : FrameOutcome) : PollResult :=
  match fr with
  | .readError =>
    if st.running then
      ⟨st, [.sleepPause], [⟨.error, "Error in main loop"⟩]⟩
    else
      ⟨st, [], []⟩
  | .ok predictions =>
    match predictions.lookup WAKE_WORD with
    | none => ⟨st, [], []⟩
    | some confidence =>
      if confidence > DETECTION_THRESHOLD then
        let detLogs : List LogEntry := [⟨.info, "Wake word detected"⟩]
        if now - st.last_run > WAKE_WORD_COOLDOWN then
          ⟨{ st with last_run := now }, [.playWakeFeedback, .spawnRecordingThread], detLogs⟩
        else
          ⟨st, [], detLogs⟩
      else
        ⟨st, [], []⟩

/-! ## Theorems -/

/-- C1: for every polled frame carrying a confidence `c` for the
configured wake word, a recording cycle is triggered (the recording
thread spawned) exactly once when `c` strictly exceeds
`DETECTION_THRESHOLD` and the elapsed time since the last trigger
strictly exceeds `WAKE_WORD_COOLDOWN` (and `last_run` is then set to
`now`); when either strict inequality fails — in particular when `c`
equals the threshold — no cycle is triggered. -/
theorem trigger_iff_strict_threshold_and_cooldown
    (now : ℚ) (st : LoopState) (predictions : List (String × ℚ)) (c : ℚ)
    (hc : predictions.lookup WAKE_WORD = some c) :
    ((c > DETECTION_THRESHOLD ∧ now - st.last_run > WAKE_WORD_COOLDOWN) →
        (pollStep now st (.ok predictions)).actions.count .spawnRecordingThread = 1 ∧
          (pollStep now st (.ok predictions)).state.last_run = now) ∧
    (¬ (c > DETECTION_THRESHOLD ∧ now - st.last_run > WAKE_WORD_COOLDOWN) →
        (pollStep now st (.ok predictions)).actions.count .spawnRecordingThread = 0) ∧
    (c = DETECTION_THRESHOLD →
        (pollStep now st (.ok predictions)).actions.count .spawnRecordingThread = 0) := by
  simp only [pollStep, hc]
  refine ⟨?_, ?_, ?_⟩
  · rintro ⟨h1, h2⟩
    rw [if_pos h1, if_pos h2]
    exact ⟨rfl, rfl⟩
  · intro h
    by_cases h1 : c > DETECTION_THRESHOLD
    · have h2 : ¬ (now - st.last_run > WAKE_WORD_COOLDOWN) := fun hh => h ⟨h1, hh⟩
      rw [if_pos h1, if_neg h2]
      rfl
    · rw [if_neg h1]
      rfl
  · intro he
    have h1 : ¬ (c > DETECTION_THRESHOLD) := by
      rw [he]
      exact lt_irrefl _
    rw [if_neg h1]
    rfl

/-- Witness for C1: confidence 0.45 > 0.3 with cooldown elapsed
(now = 4, last trigger at 0) triggers exactly one cycle and resets the
cooldown timestamp. -/
theorem trigger_iff_strict_threshold_and_cooldown_witness :
    ([("hey_jarvis", mkRat 45 100)].lookup WAKE_WORD = some (mkRat 45 100)) ∧
    (pollStep 4 ⟨true, 0⟩ (.ok [("hey_jarvis", mkRat 45 100)])).actions.count
        .spawnRecordingThread = 1 ∧
    (pollStep 4 ⟨true, 0⟩ (.ok [("hey_jarvis", mkRat 45 100)])).state.last_run = 4 :=
  ⟨by decide,
    (trigger_iff_strict_threshold_and_cooldown 4 ⟨true, 0⟩
        [("hey_jarvis", mkRat 45 100)] (mkRat 45 100) (by decide)).1
      ⟨by decide, ratSub_eq_sub 4 0 ▸ (by decide : ratSub 4 0 > WAKE_WORD_COOLDOWN)⟩⟩

/-- C2: at most one recording cycle is active: an invocation of
`record_and_transcribe` while the shared flag is already true returns
immediately (no actions, no logs, nothing dispatched — dropped, not
queued), and an invocation that does enter a cycle ends with the flag
reset to false on every exit path, with no exception escaping. -/
theorem active_flag_guard_and_reset (enableTTS : Bool) (env : CycleEnv) :
    recordAndTranscribe true enableTTS env =
      { recording := true, dispatched := none, actions := [], logs := [], raised := false } ∧
    (recordAndTranscribe false enableTTS env).recording = false ∧
    (recordAndTranscribe false enableTTS env).raised = false := by
  refine ⟨rfl, ?_, ?_⟩ <;> simp [recordAndTranscribe]

/-- C9: a transient read error in the poll loop is not fatal: while
running, the iteration logs an error, pauses briefly, leaves the state
unchanged — and no iteration outcome whatsoever clears the `running`
flag, so polling stops only via shutdown. -/
theorem read_error_transient
    (now : ℚ) (st : LoopState) (fr : FrameOutcome) (h : st.running = true) :
    pollStep now st .readError =
      ⟨st, [.sleepPause], [⟨.error, "Error in main loop"⟩]⟩ ∧
    (pollStep now st fr).state.running = st.running := by
  constructor
  · simp [pollStep, h]
  · cases fr with
    | readError =>
      simp only [pollStep]
      split <;> rfl
    | ok predictions =>
      simp only [pollStep]
      rcases predictions.lookup WAKE_WORD with _ | c
      · rfl
      · dsimp only
        split_ifs <;> rfl

/-- Witness for C9: a read error at `now = 0` against a running state. -/
theorem read_error_transient_witness :
    pollStep 0 ⟨true, 0⟩ .readError =
      ⟨⟨true, 0⟩, [.sleepPause], [⟨.error, "Error in main loop"⟩]⟩ ∧
    (pollStep 0 ⟨true, 0⟩ .readError).state.running = true :=
  read_error_transient 0 ⟨true, 0⟩ .readError rfl

/-- C10: a qualifying detection (confidence above threshold, cooldown
elapsed) arriving while a recording cycle is active still plays the wake
feedback tone and resets the cooldown timestamp in the poll loop, while
the spawned `record_and_transcribe` invocation finds the shared flag set
and aborts immediately — nothing is recorded, yet the trigger is not
side-effect free. -/
theorem suppressed_trigger_still_beeps_and_resets_cooldown
    (now : ℚ) (st : LoopState) (predictions : List (String × ℚ)) (c : ℚ)
    (enableTTS : Bool) (env : CycleEnv)
    (hc : predictions.lookup WAKE_WORD = some c)
    (hthr : c > DETECTION_THRESHOLD)
    (hcool : now - st.last_run > WAKE_WORD_COOLDOWN) :
    (pollStep now st (.ok predictions)).actions =
      [.playWakeFeedback, .spawnRecordingThread] ∧
    (pollStep now st (.ok predictions)).state.last_run = now ∧
    recordAndTranscribe true enableTTS env =
      { recording := true, dispatched := none, actions := [], logs := [], raised := false } := by
  simp only [pollStep, hc]
  rw [if_pos hthr, if_pos hcool]
  exact ⟨rfl, rfl, rfl⟩

/-- Witness for C10: concrete qualifying detection with an active cycle. -/
theorem suppressed_trigger_witness :
    (pollStep 4 ⟨true, 0⟩ (.ok [("hey_jarvis", mkRat 45 100)])).actions =
      [.playWakeFeedback, .spawnRecordingThread] ∧
    (pollStep 4 ⟨true, 0⟩ (.ok [("hey_jarvis", mkRat 45 100)])).state.last_run = 4 ∧
    recordAndTranscribe true true
        ⟨true, ⟨true, "/tmp/beep.wav", .ok, true⟩, .success "hello",
          .timedOut, ⟨false, false, ⟨.raised, "/tmp/fb.wav", .raised⟩, false, false⟩⟩ =
      { recording := true, dispatched := none, actions := [], logs := [], raised := false } :=
  suppressed_trigger_still_beeps_and_resets_cooldown 4 ⟨true, 0⟩
    [("hey_jarvis", mkRat 45 100)] (mkRat 45 100) true
    ⟨true, ⟨true, "/tmp/beep.wav", .ok, true⟩, .success "hello",
      .timedOut, ⟨false, false, ⟨.raised, "/tmp/fb.wav", .raised⟩, false, false⟩⟩
    (by decide) (by decide)
    (ratSub_eq_sub 4 0 ▸ (by decide : ratSub 4 0 > WAKE_WORD_COOLDOWN))

/-- C8: when the feedback tone was generated, the temporary tone file is
deleted right after the play attempt for every playback outcome (success,
timeout, non-zero exit, missing player binary), no exception escapes, and
a failing deletion changes nothing observable (best-effort, never
raises). -/
theorem feedback_temp_file_always_deleted (env : FeedbackEnv) (h : env.genOk = true) :
    (playWakeFeedback env).actions = [.aplayQ env.tempPath, .unlink env.tempPath] ∧
    (playWakeFeedback env).raised = false ∧
    playWakeFeedback { env with unlinkOk := false } =
      playWakeFeedback { env with unlinkOk := true } := by
  refine ⟨?_, ?_, rfl⟩ <;> simp [playWakeFeedback, h]

/-- Witness for C8: playback times out and the deletion itself fails. -/
theorem feedback_temp_file_always_deleted_witness :
    (playWakeFeedback ⟨true, "/tmp/tone.wav", .timedOut, false⟩).actions =
      [.aplayQ "/tmp/tone.wav", .unlink "/tmp/tone.wav"] ∧
    (playWakeFeedback ⟨true, "/tmp/tone.wav", .timedOut, false⟩).raised = false ∧
    playWakeFeedback ⟨true, "/tmp/tone.wav", .timedOut, false⟩ =
      playWakeFeedback ⟨true, "/tmp/tone.wav", .timedOut, true⟩ :=
  feedback_temp_file_always_deleted ⟨true, "/tmp/tone.wav", .timedOut, false⟩ rfl

/-- C7: transcription failures are classified into exactly the two caught
cases — `sr.UnknownValueError` logged at info level and `sr.RequestError`
logged as an error, each ending the cycle with nothing dispatched — a
failure of the recording step itself also ends the cycle with an
error-level record and nothing dispatched, and for every cycle
environment whatsoever no failure escapes `record_and_transcribe` to the
polling loop. -/
theorem transcription_failure_classified_and_contained
    (enableTTS : Bool) (env : CycleEnv) :
    (env.recordOk = true → env.transcription = .unknownValue →
      (⟨.info, "Could not understand audio"⟩ : LogEntry) ∈
          (recordAndTranscribe false enableTTS env).logs ∧
        (recordAndTranscribe false enableTTS env).dispatched = none) ∧
    (env.recordOk = true → env.transcription = .requestError →
      (⟨.error, "Speech recognition error"⟩ : LogEntry) ∈
          (recordAndTranscribe false enableTTS env).logs ∧
        (recordAndTranscribe false enableTTS env).dispatched = none) ∧
    (env.recordOk = false →
      (⟨.error, "Error during recording/transcription"⟩ : LogEntry) ∈
          (recordAndTranscribe false enableTTS env).logs ∧
        (recordAndTranscribe false enableTTS env).dispatched = none) ∧
    (recordAndTranscribe false enableTTS env).raised = false := by
  obtain ⟨rOk, fb, tr, ag, sp⟩ := env
  refine ⟨?_, ?_, ?_, by simp [recordAndTranscribe]⟩
  · intro hrec htr
    simp only at hrec htr
    subst hrec
    subst htr
    constructor <;> simp [recordAndTranscribe, cycleBody]
  · intro hrec htr
    simp only at hrec htr
    subst hrec
    subst htr
    constructor <;> simp [recordAndTranscribe, cycleBody]
  · intro hrec
    simp only at hrec
    subst hrec
    constructor <;> simp [recordAndTranscribe, cycleBody]

/-- Witness for C7: an `UnknownValueError` cycle ends quietly with an
info-level record and nothing dispatched, and a cycle whose recording
step raises ends with an error-level record, nothing dispatched and no
escaping exception. -/
theorem transcription_failure_contained_witness :
    ((⟨.info, "Could not understand audio"⟩ : LogEntry) ∈
      (recordAndTranscribe false true
        ⟨true, ⟨true, "/tmp/beep.wav", .ok, true⟩, .unknownValue, .timedOut,
          ⟨false, false, ⟨.raised, "/tmp/fb.wav", .raised⟩, false, false⟩⟩).logs ∧
    (recordAndTranscribe false true
        ⟨true, ⟨true, "/tmp/beep.wav", .ok, true⟩, .unknownValue, .timedOut,
          ⟨false, false, ⟨.raised, "/tmp/fb.wav", .raised⟩, false, false⟩⟩).dispatched = none) ∧
    ((⟨.error, "Error during recording/transcription"⟩ : LogEntry) ∈
      (recordAndTranscribe false true
        ⟨false, ⟨true, "/tmp/beep.wav", .ok, true⟩, .unknownValue, .timedOut,
          ⟨false, false, ⟨.raised, "/tmp/fb.wav", .raised⟩, false, false⟩⟩).logs ∧
    (recordAndTranscribe false true
        ⟨false, ⟨true, "/tmp/beep.wav", .ok, true⟩, .unknownValue, .timedOut,
          ⟨false, false, ⟨.raised, "/tmp/fb.wav", .raised⟩, false, false⟩⟩).dispatched = none) ∧
    (recordAndTranscribe false true
        ⟨false, ⟨true, "/tmp/beep.wav", .ok, true⟩, .unknownValue, .timedOut,
          ⟨false, false, ⟨.raised, "/tmp/fb.wav", .raised⟩, false, false⟩⟩).raised = false :=
  ⟨(transcription_failure_classified_and_contained true
      ⟨true, ⟨true, "/tmp/beep.wav", .ok, true⟩, .unknownValue, .timedOut,
        ⟨false, false, ⟨.raised, "/tmp/fb.wav", .raised⟩, false, false⟩⟩).1 rfl rfl,
    (transcription_failure_classified_and_contained true
      ⟨false, ⟨true, "/tmp/beep.wav", .ok, true⟩, .unknownValue, .timedOut,
        ⟨false, false, ⟨.raised, "/tmp/fb.wav", .raised⟩, false, false⟩⟩).2.2.1 rfl,
    (transcription_failure_classified_and_contained true
      ⟨false, ⟨true, "/tmp/beep.wav", .ok, true⟩, .unknownValue, .timedOut,
        ⟨false, false, ⟨.raised, "/tmp/fb.wav", .raised⟩, false, false⟩⟩).2.2.2⟩

/-- Recording-cycle environment whose transcription is the non-empty,
all-whitespace string " ": `if text and text.strip():` is false there, so
the dispatcher is skipped although the transcript is non-empty. -/
def wsEnv : CycleEnv :=
  ⟨true, ⟨true, "/tmp/beep.wav", .ok, true⟩, .success " ", .timedOut,
    ⟨false, false, ⟨.raised, "/tmp/fb.wav", .raised⟩, false, false⟩⟩

/-- Counterexample to C6 as stated: the transcription produced the
non-empty text " ", yet the dispatcher is not invoked (the code tests
`text and text.strip()`, not mere non-emptiness). -/
theorem dispatcher_skipped_on_nonempty_whitespace_transcript :
    (" " : String) ≠ "" ∧
    (recordAndTranscribe false true wsEnv).dispatched = none := by
  exact ⟨by decide, rfl⟩

/-- C6 (amended): the dispatcher is invoked if and only if the recording
succeeded and the transcript is non-empty after trimming whitespace, and
the message passed is then the trimmed transcript with the fixed
directive suffix appended. -/
theorem dispatch_iff_trimmed_transcript_nonempty
    (enableTTS : Bool) (env : CycleEnv) (m : String) :
    (recordAndTranscribe false enableTTS env).dispatched = some m ↔
      (env.recordOk = true ∧ ∃ t, env.transcription = .success t ∧
        pyStrip t ≠ "" ∧ m = pyStrip t ++ DIRECTIVE_SUFFIX) := by
  obtain ⟨rOk, fb, tr, ag, sp⟩ := env
  simp only [recordAndTranscribe, if_neg Bool.false_ne_true]
  cases rOk with
  | false => simp [cycleBody]
  | true =>
    cases tr with
    | success t =>
      simp only [cycleBody]
      by_cases ht : t ≠ "" ∧ pyStrip t ≠ ""
      · rw [if_pos ht]
        rcases hr : (sendToOpenclaw (pyStrip t ++ DIRECTIVE_SUFFIX) ag).result with _ | v <;>
          simp [hr, ht.2, eq_comm] <;>
          exact fun _ h => ht.2 h.symm
      · have hstrip : pyStrip t = "" := by
          by_cases h0 : t = ""
          · subst h0
            rfl
          · push_neg at ht
            exact ht h0
        rw [if_neg ht]
        simp [hstrip]
    | unknownValue => simp [cycleBody]
    | requestError => simp [cycleBody]
    | otherRaised => simp [cycleBody]

/-- The espeak fallback performs exactly one espeak invocation, appended
to the accumulated actions, whatever its outcome. -/
theorem espeakFallback_actions (text : String) (env : TTSEnv)
    (acts : List Action) (logs : List LogEntry) :
    (espeakFallback text env acts logs).actions = acts ++ [.runEspeak text] := by
  unfold espeakFallback
  split <;> rfl

/-- `text_to_speech` makes exactly one primary (`openclaw tts`) attempt. -/
theorem textToSpeech_primary_count (text : String) (env : TTSEnv) :
    (textToSpeech text env).actions.count (.runAgentTTS text) = 1 := by
  rcases env with ⟨pr, tmp, es⟩
  cases pr with
  | completed code stdout =>
    simp only [textToSpeech]
    by_cases h : code = 0 ∧ hasMediaMarker stdout
    · rw [if_pos h]
      simp
    · rw [if_neg h, espeakFallback_actions]
      simp
  | fileNotFound =>
    simp only [textToSpeech]
    rw [espeakFallback_actions]
    simp
  | raised =>
    simp only [textToSpeech]
    rw [espeakFallback_actions]
    simp

/-- `text_to_speech` runs the espeak fallback exactly when the primary
attempt did not yield exit 0 with a `MEDIA:` marker. -/
theorem textToSpeech_espeak_iff (text : String) (env : TTSEnv) :
    (Action.runEspeak text ∈ (textToSpeech text env).actions ↔
      ¬ primaryTTSSuccess env) := by
  rcases env with ⟨pr, tmp, es⟩
  cases pr with
  | completed code stdout =>
    simp only [textToSpeech, primaryTTSSuccess]
    by_cases h : code = 0 ∧ hasMediaMarker stdout
    · rw [if_pos h]
      simp [h]
    · rw [if_neg h, espeakFallback_actions]
      simp [h]
  | fileNotFound =>
    simp only [textToSpeech, primaryTTSSuccess]
    rw [espeakFallback_actions]
    simp
  | raised =>
    simp only [textToSpeech, primaryTTSSuccess]
    rw [espeakFallback_actions]
    simp

/-- C3: with TTS enabled, for a reply carrying the `MEDIA:` marker:
if the referenced file does not exist there are zero playback attempts,
a warning is logged and no exception escapes; and in both the
missing-file and the failed-playback case no synthesis of the marker
text ever happens (no primary TTS, no espeak) and no `play_audio`
output is produced — the cycle ends with no audio output. -/
theorem media_reference_missing_or_failed_no_fallback
    (text : String) (env : SpeakEnv) (p : String)
    (hm : pyStartsWith text "MEDIA:" = true) :
    (env.mediaExists = false →
      (speakResponse true text env).actions = [] ∧
      (⟨.warning, "MP3 file not found"⟩ : LogEntry) ∈ (speakResponse true text env).logs ∧
      (speakResponse true text env).raised = false) ∧
    (Action.runAgentTTS p ∉ (speakResponse true text env).actions ∧
      Action.runEspeak p ∉ (speakResponse true text env).actions ∧
      Action.playAudio p ∉ (speakResponse true text env).actions) ∧
    (env.mediaExists = true → env.mp3Ok = false →
      (speakResponse true text env).actions = [.playMp3 (pyStrip (pyDrop text 6))] ∧
      (⟨.warning, "MP3 playback failed, falling back to TTS"⟩ : LogEntry) ∈
        (speakResponse true text env).logs ∧
      (speakResponse true text env).raised = false) := by
  rcases env with ⟨me, mp3, tts, se, ao⟩
  cases me <;> cases mp3 <;> simp [speakResponse, hm]

/-- Witness for C3: `MEDIA:/tmp/x.mp3` with the file missing. -/
theorem media_reference_missing_witness :
    ((speakResponse true "MEDIA:/tmp/x.mp3"
        ⟨false, false, ⟨.raised, "/tmp/fb.wav", .raised⟩, false, false⟩).actions = [] ∧
      (⟨.warning, "MP3 file not found"⟩ : LogEntry) ∈
        (speakResponse true "MEDIA:/tmp/x.mp3"
          ⟨false, false, ⟨.raised, "/tmp/fb.wav", .raised⟩, false, false⟩).logs ∧
      (speakResponse true "MEDIA:/tmp/x.mp3"
        ⟨false, false, ⟨.raised, "/tmp/fb.wav", .raised⟩, false, false⟩).raised = false) ∧
    Action.runEspeak "/tmp/x.mp3" ∉
      (speakResponse true "MEDIA:/tmp/x.mp3"
        ⟨false, false, ⟨.raised, "/tmp/fb.wav", .raised⟩, false, false⟩).actions :=
  ⟨(media_reference_missing_or_failed_no_fallback "MEDIA:/tmp/x.mp3"
      ⟨false, false, ⟨.raised, "/tmp/fb.wav", .raised⟩, false, false⟩ "/tmp/x.mp3"
      (by decide)).1 rfl,
    ((media_reference_missing_or_failed_no_fallback "MEDIA:/tmp/x.mp3"
      ⟨false, false, ⟨.raised, "/tmp/fb.wav", .raised⟩, false, false⟩ "/tmp/x.mp3"
      (by decide)).2.1).2.1⟩

/-- C4: with TTS enabled, for a plain-text reply (no `MEDIA:` marker)
exactly one synthesis attempt is made via the primary path (`openclaw
tts`), and the espeak fallback runs if and only if the primary attempt
did not yield a media reference — never both unconditionally. -/
theorem plaintext_single_primary_fallback_iff_failure
    (text : String) (env : SpeakEnv)
    (hm : pyStartsWith text "MEDIA:" = false) :
    (speakResponse true text env).actions.count (.runAgentTTS text) = 1 ∧
    (Action.runEspeak text ∈ (speakResponse true text env).actions ↔
      ¬ primaryTTSSuccess env.tts) := by
  simp only [speakResponse, hm]
  rcases hres : (textToSpeech text env.tts).result with _ | p
  · simp only [hres]
    exact ⟨textToSpeech_primary_count text env.tts, textToSpeech_espeak_iff text env.tts⟩
  · simp only [hres]
    by_cases hp : p ≠ "" ∧ env.synthExists = true
    · rw [if_pos hp]
      by_cases hc : ¬ pyStartsWith p "/tmp/tts-" = true
      · rw [if_pos hc]
        have h1 := textToSpeech_primary_count text env.tts
        have h2 := textToSpeech_espeak_iff text env.tts
        constructor
        · simp [List.count_append, List.count_cons, h1]
        · simp [List.mem_append, h2]
      · rw [if_neg hc]
        have h1 := textToSpeech_primary_count text env.tts
        have h2 := textToSpeech_espeak_iff text env.tts
        constructor
        · simp [List.count_append, List.count_cons, h1]
        · simp [List.mem_append, h2]
    · rw [if_neg hp]
      exact ⟨textToSpeech_primary_count text env.tts, textToSpeech_espeak_iff text env.tts⟩

/-- Witness for C4: plain text with a failing (timed-out) primary
attempt: one primary attempt, fallback ran. -/
theorem plaintext_single_primary_witness :
    (speakResponse true "hello"
        ⟨false, false, ⟨.raised, "/tmp/fb.wav", .completed 0 ""⟩, true, true⟩).actions.count
      (.runAgentTTS "hello") = 1 ∧
    (Action.runEspeak "hello" ∈
      (speakResponse true "hello"
        ⟨false, false, ⟨.raised, "/tmp/fb.wav", .completed 0 ""⟩, true, true⟩).actions ↔
      ¬ primaryTTSSuccess ⟨.raised, "/tmp/fb.wav", .completed 0 ""⟩) :=
  plaintext_single_primary_fallback_iff_failure "hello"
    ⟨false, false, ⟨.raised, "/tmp/fb.wav", .completed 0 ""⟩, true, true⟩ (by decide)

/-- Reduction of `Except` bind on a success value (used to unfold the
extraction logic in proofs). -/
theorem exceptOkBind {α β : Type} (a : α) (f : α → Except Unit β) :
    (Except.ok a : Except Unit α) >>= f = f a := rfl

/-- An agent invocation that exits 0 with valid JSON whose
`result.payloads` list is present but empty. -/
def emptyPayloadsEnv : AgentOutcome :=
  .completed 0 (some (.obj [("result", .obj [("payloads", .arr [])])]))

/-- Counterexample to C5 as stated: with an empty payload list the
dispatcher returns `None`, but the record it logs is at warning level —
no error-level record is emitted for this failure mode. -/
theorem empty_payloads_warns_without_error :
    (sendToOpenclaw "hello" emptyPayloadsEnv).result = none ∧
    (⟨.warning, "No response text found in OpenClaw output"⟩ : LogEntry) ∈
      (sendToOpenclaw "hello" emptyPayloadsEnv).logs ∧
    ∀ e ∈ (sendToOpenclaw "hello" emptyPayloadsEnv).logs, e.level ≠ .error := by
  refine ⟨rfl, by decide, by decide⟩

/-- C5 (amended): `send_to_openclaw` returns `None` in every failure
mode; a non-zero exit code, malformed JSON and a timeout are logged at
error level, while a missing reply field or an empty payload list (any
response whose extraction falls through, `extractResponse = ok none`)
yields `None` with a warning-level record; on success it returns the
`text` field of the first payload. -/
theorem dispatch_none_on_failures_with_log_levels
    (text : String) (exitCode : Int) (parsed : Option JsonVal) (response : JsonVal)
    (s : String) (more : List (String × JsonVal)) (rest : List JsonVal)
    (hex : exitCode ≠ 0) (hs : s ≠ "") :
    sendToOpenclaw text .timedOut =
      ⟨none, [.runAgentCLI text],
        [⟨.info, "Sending to OpenClaw"⟩, ⟨.error, "OpenClaw command timed out"⟩]⟩ ∧
    sendToOpenclaw text (.completed exitCode parsed) =
      ⟨none, [.runAgentCLI text],
        [⟨.info, "Sending to OpenClaw"⟩, ⟨.error, "OpenClaw CLI failed"⟩]⟩ ∧
    sendToOpenclaw text (.completed 0 none) =
      ⟨none, [.runAgentCLI text],
        [⟨.info, "Sending to OpenClaw"⟩, ⟨.error, "Failed to parse OpenClaw JSON response"⟩]⟩ ∧
    (extractResponse response = .ok none →
      sendToOpenclaw text (.completed 0 (some response)) =
        ⟨none, [.runAgentCLI text],
          [⟨.info, "Sending to OpenClaw"⟩,
            ⟨.warning, "No response text found in OpenClaw output"⟩]⟩) ∧
    sendToOpenclaw text (.completed 0 (some (.obj [("result",
        .obj [("payloads", .arr (.obj (("text", .str s) :: more) :: rest))])]))) =
      ⟨some (.str s), [.runAgentCLI text],
        [⟨.info, "Sending to OpenClaw"⟩, ⟨.info, "OpenClaw response"⟩]⟩ := by
  refine ⟨rfl, ?_, rfl, ?_, ?_⟩
  · simp only [sendToOpenclaw]
    rw [if_pos hex]
  · intro h
    simp [sendToOpenclaw, h]
  · have hex0 : extractResponse (.obj [("result",
        .obj [("payloads", .arr (.obj (("text", .str s) :: more) :: rest))])]) =
        .ok (some (.str s)) := by
      simp [extractResponse, pyContains, pyIndexStr, pyLen, pyIndexZero, pyGetText,
        pyTruthy, exceptOkBind, List.lookup, hs]
      rfl
    simp [sendToOpenclaw, hex0]

/-- Witness for C5 (amended): concrete instances of each failure mode
plus a successful extraction of the first payload's text. -/
theorem dispatch_none_on_failures_witness :
    sendToOpenclaw "hi" .timedOut =
      ⟨none, [.runAgentCLI "hi"],
        [⟨.info, "Sending to OpenClaw"⟩, ⟨.error, "OpenClaw command timed out"⟩]⟩ ∧
    sendToOpenclaw "hi" (.completed 1 none) =
      ⟨none, [.runAgentCLI "hi"],
        [⟨.info, "Sending to OpenClaw"⟩, ⟨.error, "OpenClaw CLI failed"⟩]⟩ ∧
    sendToOpenclaw "hi" (.completed 0 none) =
      ⟨none, [.runAgentCLI "hi"],
        [⟨.info, "Sending to OpenClaw"⟩, ⟨.error, "Failed to parse OpenClaw JSON response"⟩]⟩ ∧
    sendToOpenclaw "hi" (.completed 0 (some (.obj []))) =
      ⟨none, [.runAgentCLI "hi"],
        [⟨.info, "Sending to OpenClaw"⟩,
          ⟨.warning, "No response text found in OpenClaw output"⟩]⟩ ∧
    sendToOpenclaw "hi" (.completed 0 (some (.obj [("result",
        .obj [("payloads", .arr [.obj [("text", .str "ok")]])])]))) =
      ⟨some (.str "ok"), [.runAgentCLI "hi"],
        [⟨.info, "Sending to OpenClaw"⟩, ⟨.info, "OpenClaw response"⟩]⟩ := by
  obtain ⟨h1, h2, h3, h4, h5⟩ :=
    dispatch_none_on_failures_with_log_levels "hi" 1 none (.obj []) "ok" [] []
      (by decide) (by decide)
  exact ⟨h1, h2, h3, h4 rfl, h5⟩

end VoiceWake
